import Mathlib

/-!
Shallow embedding of the `django-drf-filepond` storage/promotion API
(`django_drf_filepond/api.py`, `storage_utils.py`, `s3_move_uploader.py`).

Database tables (`TemporaryUpload`, `StoredUpload`) are modelled as lists of
records; `objects.get(...)` becomes `List.find?` (the `upload_id` column is
unique, so ORM row deletion is modelled as filtering that key out).  The local
filesystem and the remote object store are association lists from paths/keys
to byte contents (bytes are `List Nat`).  Raised Python exceptions become an
explicit error type returned in `Except`.
-/

namespace DrfFilepond

abbrev Bytes := List Nat

/-- The default `shortuuid` alphabet used by `shortuuid.get_alphabet()`:
base-57, i.e. digits and letters minus the ambiguous `0 O 1 I l`. -/
def shortuuid_alphabet : String :=
  "23456789ABCDEFGHJKLMNPQRSTUVWXYZabcdefghijkmnopqrstuvwxyz"

/-- Embeds the check `re.compile` of `'^([%s])\x7b22\x7d$' % shortuuid.get_alphabet()`
applied with `.match(s)`.  Python's `$` (without `re.MULTILINE`) matches at
the end of the string OR just before a newline that is the string's last
character, so the regex accepts exactly 22 alphabet characters, optionally
followed by one trailing `'\n'`. -/
def id_fmt_match (s : String) : Bool :=
  let cs := if s.data.getLast? == some '\n' then s.data.dropLast else s.data
  cs.length == 22 && cs.all (fun c => shortuuid_alphabet.data.contains c)

/-- A `TemporaryUpload` row: the fields `store_upload` reads
(`upload_id`, `file.name`, `uploaded`, `uploaded_by`). -/
structure TemporaryUpload where
  upload_id : String
  file_name : String
  uploaded : Nat
  uploaded_by : Option String
deriving Repr, DecidableEq

/-- A `StoredUpload` row: `upload_id`, `file` (path/key in permanent
storage), `uploaded`, `uploaded_by`. -/
structure StoredUpload where
  upload_id : String
  file : String
  uploaded : Nat
  uploaded_by : Option String
deriving Repr, DecidableEq

/-- The persistence layer: the two tables the API manipulates. -/
structure DBState where
  tempUploads : List TemporaryUpload
  storedUploads : List StoredUpload
deriving Repr, DecidableEq

/-- Embeds `TemporaryUpload.objects.get(upload_id=i)` (`none` = `DoesNotExist`). -/
def find_temp (db : DBState) (i : String) : Option TemporaryUpload :=
  db.tempUploads.find? (fun t => t.upload_id == i)

/-- Embeds `StoredUpload.objects.get(upload_id=i)` (`none` = `DoesNotExist`). -/
def find_stored_by_id (db : DBState) (i : String) : Option StoredUpload :=
  db.storedUploads.find? (fun s => s.upload_id == i)

/-- Embeds `StoredUpload.objects.get(file=i)` (`none` = `DoesNotExist`). -/
def find_stored_by_file (db : DBState) (i : String) : Option StoredUpload :=
  db.storedUploads.find? (fun s => s.file == i)

/-- The exceptions the API raises. -/
inductive ApiError where
  /-- Models `ValueError` with the invalid-format message. -/
  | invalidFormat
  /-- Models `ValueError` with the record-does-not-exist message. -/
  | tempNotFound
  /-- Models `StoredUpload.DoesNotExist`. -/
  | storedDoesNotExist
  /-- Models `ConfigurationError` (file upload settings not configured correctly). -/
  | configurationError
  /-- Models `FileNotFoundError`. -/
  | fileNotFound
  /-- the exception re-raised from `su.save()` / `temp_upload.delete()` -/
  | storageError
deriving Repr, DecidableEq

instance {ε α : Type} [DecidableEq ε] [DecidableEq α] :
    DecidableEq (Except ε α) := fun x y =>
  match x, y with
  | .ok a, .ok b =>
    if h : a = b then .isTrue (by rw [h])
    else .isFalse (by intro hc; cases hc; exact h rfl)
  | .ok _, .error _ => .isFalse (by intro hc; cases hc)
  | .error _, .ok _ => .isFalse (by intro hc; cases hc)
  | .error e, .error f =>
    if h : e = f then .isTrue (by rw [h])
    else .isFalse (by intro hc; cases hc; exact h rfl)

/-- Embeds `api.store_upload(upload_id)`.  `save_fails` injects a failure of
`su.save()` (the persistence of the new `StoredUpload` row): the `except`
block logs and re-raises, so on failure no row was written and
`temp_upload.delete()` was never reached.  On success the new row is
persisted and the temporary row deleted.  Returns the raised error or the
`StoredUpload`, paired with the database state after the call. -/
def store_upload (save_fails : Bool) (db : DBState) (upload_id : String) :
    Except ApiError StoredUpload × DBState :=
  if id_fmt_match upload_id then
    match find_temp db upload_id with
    | none => (.error .tempNotFound, db)
    | some tu =>
      let su : StoredUpload :=
        { upload_id := tu.upload_id, file := tu.file_name,
          uploaded := tu.uploaded, uploaded_by := tu.uploaded_by }
      if save_fails then (.error .storageError, db)
      else (.ok su,
            { tempUploads := db.tempUploads.filter (fun t => !(t.upload_id == upload_id)),
              storedUploads := db.storedUploads ++ [su] })
  else (.error .invalidFormat, db)

/-- Embeds `api.get_stored_upload(upload_id)`.  If the identifier matches the
upload-id format, try the `upload_id` lookup first; whenever that is skipped
(format mismatch) or finds no row (`DoesNotExist` sets `param_filename`),
fall back to the lookup by `file` path; re-raise `DoesNotExist` if that also
fails. -/
def get_stored_upload (db : DBState) (ident : String) : Except ApiError StoredUpload :=
  if id_fmt_match ident then
    match find_stored_by_id db ident with
    | some su => .ok su
    | none =>
      match find_stored_by_file db ident with
      | some su => .ok su
      | none => .error .storedDoesNotExist
  else
    match find_stored_by_file db ident with
    | some su => .ok su
    | none => .error .storedDoesNotExist

/-- The settings the embedded functions read:
`STORAGES_BACKEND` (None/empty means local file storage),
`FILE_STORE_PATH` (`none` models the attribute missing or set to `None`;
`some ""` models the empty string — both are falsy in the Python checks), and
the `THUMBNAIL_SIZES` mapping. -/
structure Config where
  storages_backend : Option String
  file_store_path : Option String
  thumbnail_sizes : List (String × String)
deriving Repr, DecidableEq

/-- The local filesystem: the set of existing directories and the files with
their contents.  `os.path.exists` = directory or file, `os.path.isdir` /
`os.path.isfile` test the respective component. -/
structure LocalFS where
  dirs : List String
  files : List (String × Bytes)
deriving Repr, DecidableEq

def local_isfile (fs : LocalFS) (p : String) : Bool := (fs.files.lookup p).isSome

def local_isdir (fs : LocalFS) (p : String) : Bool := fs.dirs.contains p

def local_exists (fs : LocalFS) (p : String) : Bool := local_isdir fs p || local_isfile fs p

/-- Modelled from the spec: reading a stored artifact
(`stored_upload.file.read()` via the Django storage of the missing
`models.py`) returns the bytes of the physical artifact at the path the
function has just verified to exist. -/
def read_local (fs : LocalFS) (p : String) : Bytes := (fs.files.lookup p).getD []

/-- A remote django-storages backend holding object keys and their bytes. -/
structure RemoteStore where
  objects : List (String × Bytes)
deriving Repr, DecidableEq

def remote_exists (rs : RemoteStore) (p : String) : Bool := (rs.objects.lookup p).isSome

/-- Modelled from the spec: reading a stored artifact from the remote
backend returns the bytes held at that object key. -/
def read_remote (rs : RemoteStore) (p : String) : Bytes := (rs.objects.lookup p).getD []

/-- Embeds `os.path.join(base, name)` for the shapes the API produces: joining with
the empty base is the name itself, otherwise the separator is inserted. -/
def path_join (base name : String) : String :=
  if base = "" then name else base ++ "/" ++ name

/-- Embeds `os.path.basename`: the component after the last separator. -/
def basename (p : String) : String := (p.splitOn "/").getLastD p

/-- The local-storage settings check in `get_stored_upload_file_data` and
`delete_stored_upload`: `FILE_STORE_PATH` must be present, truthy, existing
and a directory, otherwise `ConfigurationError` is raised. -/
def file_store_path_ok (cfg : Config) (fs : LocalFS) : Bool :=
  match cfg.file_store_path with
  | none => false
  | some p => !(p == "") && local_exists fs p && local_isdir fs p

/-- The thumbnail configuration chosen for a requested `thumbnail_type`:
`THUMBNAIL_SIZES.get(thumbnail_type, None)`, with any falsy result replaced
(after an error log) by the fixed default `'300x300'`. -/
def chosen_thumbnail_config (cfg : Config) (thumbnail_type : String) : String :=
  match cfg.thumbnail_sizes.lookup thumbnail_type with
  | some s => if s == "" then "300x300" else s
  | none => "300x300"

/-- The tail of `get_stored_upload_file_data` from line 212 on: the
thumbnail branch runs when the filename is a thumbnailable image, the
requested type is truthy and `THUMBNAIL_SIZES` is non-empty; `getThumb`
models `sorl.thumbnail.get_thumbnail` composed with `.exists()`/.read()`
(`none` = the produced thumbnail does not exist, i.e. production failed), in
which case the original bytes are returned after an error log. -/
def thumb_result (cfg : Config) (isImage : String → Bool)
    (getThumb : String → String → Option Bytes)
    (su : StoredUpload) (thumbnail_type : String) (original : Bytes) :
    String × Bytes :=
  let filename := basename su.file
  if isImage filename && !(thumbnail_type == "") && !cfg.thumbnail_sizes.isEmpty then
    match getThumb su.file (chosen_thumbnail_config cfg thumbnail_type) with
    | some tb => (filename, tb)
    | none => (filename, original)
  else (filename, original)

/-- Embeds `api.get_stored_upload_file_data(stored_upload, thumbnail_type)`.
`remote` is the initialised `storage_backend` (`none` = local storage).
`thumbnail_type = ""` models a falsy (absent) thumbnail type. -/
def get_stored_upload_file_data (cfg : Config) (remote : Option RemoteStore)
    (fs : LocalFS) (isImage : String → Bool)
    (getThumb : String → String → Option Bytes)
    (su : StoredUpload) (thumbnail_type : String) :
    Except ApiError (String × Bytes) :=
  match remote with
  | some rs =>
    let file_path := path_join "" su.file
    if remote_exists rs file_path then
      .ok (thumb_result cfg isImage getThumb su thumbnail_type (read_remote rs file_path))
    else .error .fileNotFound
  | none =>
    if file_store_path_ok cfg fs then
      let file_path := path_join (cfg.file_store_path.getD "") su.file
      if local_exists fs file_path && local_isfile fs file_path then
        .ok (thumb_result cfg isImage getThumb su thumbnail_type (read_local fs file_path))
      else .error .fileNotFound
    else .error .configurationError

/-- Embeds `api.delete_stored_upload(upload_id, delete_file)`.  The record found by
`get_stored_upload` is deleted first (`su.delete()`); only then, when
`delete_file` is set, are the backend checks run and the physical artifact
removed — so the configuration and missing-file errors are raised with the
registry row already gone.  Returns the outcome together with the database,
filesystem and remote-store states after the call. -/
def delete_stored_upload (cfg : Config) (remote : Option RemoteStore)
    (fs : LocalFS) (db : DBState) (ident : String) (delete_file : Bool) :
    Except ApiError Bool × DBState × LocalFS × Option RemoteStore :=
  match get_stored_upload db ident with
  | .error e => (.error e, db, fs, remote)
  | .ok su =>
    let db2 : DBState :=
      { db with storedUploads := db.storedUploads.filter (fun s => !(s.upload_id == su.upload_id)) }
    if delete_file then
      match remote with
      | some rs =>
        let file_path := path_join "" su.file
        if remote_exists rs file_path then
          (.ok true, db2, fs,
           some { objects := rs.objects.filter (fun kv => !(kv.1 == file_path)) })
        else (.error .fileNotFound, db2, fs, remote)
      | none =>
        if file_store_path_ok cfg fs then
          let file_path := path_join (cfg.file_store_path.getD "") su.file
          if local_exists fs file_path && local_isfile fs file_path then
            (.ok true, db2,
             { fs with files := fs.files.filter (fun kv => !(kv.1 == file_path)) },
             remote)
          else (.error .fileNotFound, db2, fs, remote)
        else (.error .configurationError, db2, fs, remote)
    else (.ok true, db2, fs, remote)

/-- The errors `storage_utils.init_storage_backend` can raise. -/
inductive InitError where
  /-- Models `django.core.exceptions.ImproperlyConfigured`. -/
  | improperlyConfigured
  /-- Models `FileNotFoundError`. -/
  | fsFileNotFound
deriving Repr, DecidableEq

/-- Notes that `_get_storage_backend(fq_classname)` returns `None` exactly when the
`STORAGES_BACKEND` setting is falsy, so the backend instance is truthy iff
the setting is a non-empty string. -/
def backend_active (cfg : Config) : Bool :=
  match cfg.storages_backend with
  | some s => !(s == "")
  | none => false

/-- Embeds `storage_utils.init_storage_backend()`: as written, the
`FILE_STORE_PATH` validation (`ImproperlyConfigured` when missing/falsy,
`FileNotFoundError` when not an existing directory) runs under
`if storage_backend:`, i.e. only when a REMOTE backend is configured; with
local storage every check is skipped. -/
def init_storage_backend (cfg : Config) (fs : LocalFS) : Except InitError Unit :=
  if backend_active cfg then
    match cfg.file_store_path with
    | none => .error .improperlyConfigured
    | some p =>
      if p == "" then .error .improperlyConfigured
      else if local_exists fs p && local_isdir fs p then .ok ()
      else .error .fsFileNotFound
  else .ok ()

/-- An S3 bucket: object keys mapped to their bytes. -/
structure S3Bucket where
  objects : List (String × Bytes)
deriving Repr, DecidableEq

/-- Embeds the server-side copy `bucket.Object(dest).copy_from(...)` with the source bucket and key:
a server-side copy that overwrites the destination key with the source
key's bytes and touches nothing else (the call fails upstream when the
source key is absent; that case is modelled as leaving the bucket as-is). -/
def s3_copy_from (b : S3Bucket) (dest src : String) : S3Bucket :=
  match b.objects.lookup src with
  | some data => { objects := (dest, data) :: b.objects.filter (fun kv => !(kv.1 == dest)) }
  | none => b

/-- Embeds `S3MoveStorage.save(name, content)`: cleans and normalises the target
name, issues a single server-side `copy_from` of `content.name` to the
normalised name, and returns the cleaned name.  `clean` and `norm` stand for
the library's `_clean_name` / `_normalize_name`. -/
def s3_move_storage_save (clean norm : String → String) (b : S3Bucket)
    (name content_name : String) : String × S3Bucket :=
  let cleaned := clean name
  let nname := norm cleaned
  (cleaned, s3_copy_from b nname content_name)

/-! ### Helper lemmas -/

theorem find?_filter_not {α : Type} (p : α → Bool) (l : List α) :
    (l.filter (fun a => !(p a))).find? p = none := by
  induction l with
  | nil => rfl
  | cons x xs ih =>
    cases h : p x with
    | true => simp [List.filter_cons, h, ih]
    | false => simp [List.filter_cons, h, List.find?, ih]

theorem lookup_filter_ne {β : Type} (l : List (String × β)) (k d : String)
    (h : (k == d) = false) :
    (l.filter (fun kv => !(kv.1 == d))).lookup k = l.lookup k := by
  induction l with
  | nil => rfl
  | cons kv tl ih =>
    cases hd : (kv.1 == d) with
    | true =>
      have hk : (k == kv.1) = false := by
        have hkd := eq_of_beq hd
        cases hke : (k == kv.1) with
        | true => rw [eq_of_beq hke, hkd] at h; simp at h
        | false => rfl
      simpa [List.filter_cons, hd, List.lookup, hk] using ih
    | false =>
      cases hk : (k == kv.1) with
      | true => simp [List.filter_cons, hd, List.lookup, hk]
      | false => simpa [List.filter_cons, hd, List.lookup, hk] using ih

/-- Retrieval over local storage with a valid configuration and an existing
file reduces to the thumbnail branch applied to the file's bytes. -/
theorem gsufd_local_ok (cfg : Config) (fs : LocalFS)
    (isImage : String → Bool) (getThumb : String → String → Option Bytes)
    (su : StoredUpload) (tt base : String) (B : Bytes)
    (hbase : cfg.file_store_path = some base)
    (hcfg : file_store_path_ok cfg fs = true)
    (hfile : fs.files.lookup (path_join base su.file) = some B) :
    get_stored_upload_file_data cfg none fs isImage getThumb su tt =
      .ok (thumb_result cfg isImage getThumb su tt B) := by
  simp [get_stored_upload_file_data, hcfg, hbase, local_exists, local_isfile,
        hfile, read_local]

/-! ### Claim theorems -/

/-- C1: if the `TemporaryUpload` record for `upload_id` exists and
persisting the new `StoredUpload` row fails, `store_upload` re-raises the
error and the database is left exactly as it was: the temporary record is
still present with the same fields and no stored record is left behind. -/
theorem C1_save_failure_leaves_temp_intact (db : DBState) (i : String)
    (tu : TemporaryUpload)
    (hfmt : id_fmt_match i = true) (htu : find_temp db i = some tu) :
    store_upload true db i = (.error .storageError, db) := by
  simp [store_upload, hfmt, htu]

/-- Witness for C1 at a concrete database holding one temporary upload. -/
theorem C1_save_failure_witness :
    store_upload true ⟨[⟨"aaaaaaaaaaaaaaaaaaaaaa", "up/f.txt", 5, none⟩], []⟩
        "aaaaaaaaaaaaaaaaaaaaaa" =
      (.error .storageError, ⟨[⟨"aaaaaaaaaaaaaaaaaaaaaa", "up/f.txt", 5, none⟩], []⟩) :=
  C1_save_failure_leaves_temp_intact
    ⟨[⟨"aaaaaaaaaaaaaaaaaaaaaa", "up/f.txt", 5, none⟩], []⟩
    "aaaaaaaaaaaaaaaaaaaaaa" ⟨"aaaaaaaaaaaaaaaaaaaaaa", "up/f.txt", 5, none⟩
    (by decide) (by decide)

/-- C2: a successful promotion returns a `StoredUpload` referencing the same
file artifact as the temporary upload, retrieving it yields byte-identical
content to the assembled file, the `TemporaryUpload` record no longer
resolves, and a `StoredUpload` with that upload_id now exists — so the two
records never coexist after promotion completes. -/
theorem C2_promote_then_retrieve (db : DBState) (cfg : Config) (fs : LocalFS)
    (isImage : String → Bool) (getThumb : String → String → Option Bytes)
    (i base : String) (tu : TemporaryUpload) (B : Bytes)
    (hfmt : id_fmt_match i = true)
    (htu : find_temp db i = some tu)
    (hbase : cfg.file_store_path = some base)
    (hcfg : file_store_path_ok cfg fs = true)
    (hfile : fs.files.lookup (path_join base tu.file_name) = some B) :
    ∃ su db2, store_upload false db i = (.ok su, db2) ∧
      su.upload_id = i ∧ su.file = tu.file_name ∧
      get_stored_upload_file_data cfg none fs isImage getThumb su "" =
        .ok (basename tu.file_name, B) ∧
      find_temp db2 i = none ∧
      (find_stored_by_id db2 i).isSome = true := by
  have htu' : db.tempUploads.find? (fun t : TemporaryUpload => t.upload_id == i) = some tu :=
    htu
  have hbeq := List.find?_some (p := fun t : TemporaryUpload => t.upload_id == i) htu'
  have hid : tu.upload_id = i := eq_of_beq hbeq
  refine ⟨⟨tu.upload_id, tu.file_name, tu.uploaded, tu.uploaded_by⟩,
    ⟨db.tempUploads.filter (fun t => !(t.upload_id == i)),
     db.storedUploads ++ [⟨tu.upload_id, tu.file_name, tu.uploaded, tu.uploaded_by⟩]⟩,
    ?_, hid, rfl, ?_, ?_, ?_⟩
  · simp [store_upload, hfmt, htu]
  · rw [gsufd_local_ok cfg fs isImage getThumb _ "" base B hbase hcfg hfile]
    simp [thumb_result]
  · exact find?_filter_not _ _
  · simp only [find_stored_by_id, List.find?_isSome]
    exact ⟨⟨tu.upload_id, tu.file_name, tu.uploaded, tu.uploaded_by⟩,
           List.mem_append_right _ (by simp), by simp [hid]⟩

/-- Witness for C2: a concrete promotion followed by retrieval returns the
stored bytes and the temporary record is gone. -/
theorem C2_promote_then_retrieve_witness :
    ∃ su db2,
      store_upload false
          ⟨[⟨"aaaaaaaaaaaaaaaaaaaaaa", "up/f.txt", 5, none⟩], []⟩
          "aaaaaaaaaaaaaaaaaaaaaa" = (.ok su, db2) ∧
      su.upload_id = "aaaaaaaaaaaaaaaaaaaaaa" ∧ su.file = "up/f.txt" ∧
      get_stored_upload_file_data ⟨none, some "store", []⟩ none
          ⟨["store"], [("store/up/f.txt", [1, 2, 3])]⟩
          (fun _ => false) (fun _ _ => none) su "" =
        .ok (basename "up/f.txt", [1, 2, 3]) ∧
      find_temp db2 "aaaaaaaaaaaaaaaaaaaaaa" = none ∧
      (find_stored_by_id db2 "aaaaaaaaaaaaaaaaaaaaaa").isSome = true :=
  C2_promote_then_retrieve
    ⟨[⟨"aaaaaaaaaaaaaaaaaaaaaa", "up/f.txt", 5, none⟩], []⟩
    ⟨none, some "store", []⟩ ⟨["store"], [("store/up/f.txt", [1, 2, 3])]⟩
    (fun _ => false) (fun _ _ => none) "aaaaaaaaaaaaaaaaaaaaaa" "store"
    ⟨"aaaaaaaaaaaaaaaaaaaaaa", "up/f.txt", 5, none⟩ [1, 2, 3]
    (by decide) (by decide) (by decide) (by decide) (by decide)

/-- C3 (counterexample): Python's `$` also matches just before a trailing
newline, so the code's format check accepts the 23-character string of 22
alphabet characters followed by a newline; `store_upload` then proceeds
past the format gate to the record lookup and raises the record-not-found
error, not the invalid-format error — refuting both the claimed
exactly-22-characters iff and the reject-before-lookup behaviour at this
input. -/
theorem C3_counterexample :
    id_fmt_match "2222222222222222222222\n" = true ∧
    ("2222222222222222222222\n" : String).length = 23 ∧
    store_upload false ⟨[], []⟩ "2222222222222222222222\n" =
      (.error .tempNotFound, ⟨[], []⟩) := by
  decide

/-- C3 (amended): the identifier-format check accepts a string iff it is
exactly 22 characters drawn from the configured shortuuid alphabet,
optionally followed by a single trailing newline (which Python's `$`
tolerates); `store_upload` rejects any identifier failing this check with
the invalid-format error, leaving the database unchanged (so no lookup
result is ever consulted and no state changes). -/
theorem C3_format_gate (i : String) (sf : Bool) (db : DBState) :
    (id_fmt_match i = true ↔
      ((i.length = 22 ∧ ∀ c ∈ i.data, c ∈ shortuuid_alphabet.data) ∨
       (∃ cs : List Char, i.data = cs ++ ['\n'] ∧ cs.length = 22 ∧
          ∀ c ∈ cs, c ∈ shortuuid_alphabet.data))) ∧
    (id_fmt_match i = false →
      store_upload sf db i = (.error .invalidFormat, db)) := by
  constructor
  · cases h : (i.data.getLast? == some '\n') with
    | true =>
      have hlast : i.data.getLast? = some '\n' := eq_of_beq h
      obtain ⟨l', hl'⟩ := List.getLast?_eq_some_iff.mp hlast
      have hufm : id_fmt_match i =
          (l'.length == 22 &&
           l'.all (fun c => shortuuid_alphabet.data.contains c)) := by
        simp [id_fmt_match, h, hl', List.dropLast_concat]
      rw [hufm]
      simp only [Bool.and_eq_true, beq_iff_eq, List.all_eq_true,
                 List.contains, List.elem_iff]
      constructor
      · intro hm
        exact Or.inr ⟨l', hl', hm.1, hm.2⟩
      · intro hr
        rcases hr with ⟨hlen, hall⟩ | ⟨cs, hcs, hlen, hall⟩
        · exact absurd
            (hall '\n' (by rw [hl']; exact List.mem_append_right _ (by simp)))
            (by decide)
        · have hcl : cs = l' := List.append_cancel_right (hcs.symm.trans hl')
          rw [← hcl]
          exact ⟨hlen, hall⟩
    | false =>
      have hufm : id_fmt_match i =
          (i.data.length == 22 &&
           i.data.all (fun c => shortuuid_alphabet.data.contains c)) := by
        simp [id_fmt_match, h]
      rw [hufm]
      simp only [Bool.and_eq_true, beq_iff_eq, List.all_eq_true,
                 List.contains, List.elem_iff]
      constructor
      · intro hm
        exact Or.inl ⟨hm.1, hm.2⟩
      · intro hr
        rcases hr with ⟨hlen, hall⟩ | ⟨cs, hcs, hlen, hall⟩
        · exact ⟨hlen, hall⟩
        · exfalso
          have hc : i.data.getLast? = some '\n' := by
            rw [hcs]; exact List.getLast?_concat cs
          rw [hc] at h
          simp at h
  · intro h
    simp [store_upload, h]

/-- Witness for C3: a malformed identifier is rejected with no state
change on a concrete database. -/
theorem C3_format_gate_witness :
    store_upload false ⟨[], []⟩ "not-a-valid-id" =
      (.error .invalidFormat, ⟨[], []⟩) :=
  (C3_format_gate "not-a-valid-id" false ⟨[], []⟩).2 (by decide)

/-- C6: for a well-formed upload id with no `TemporaryUpload` record,
`store_upload` raises the record-not-found error and the database (tracker
and registry) is unchanged: no `StoredUpload` is created. -/
theorem C6_promote_missing_record (db : DBState) (i : String) (sf : Bool)
    (hfmt : id_fmt_match i = true) (hnone : find_temp db i = none) :
    store_upload sf db i = (.error .tempNotFound, db) := by
  simp [store_upload, hfmt, hnone]

/-- Witness for C6 at a concrete well-formed id and empty tracker. -/
theorem C6_promote_missing_record_witness :
    store_upload false ⟨[], []⟩ "aaaaaaaaaaaaaaaaaaaaaa" =
      (.error .tempNotFound, ⟨[], []⟩) :=
  C6_promote_missing_record ⟨[], []⟩ "aaaaaaaaaaaaaaaaaaaaaa" false
    (by decide) (by decide)

/-- C4 (counterexample): the claim says the file-path lookup is attempted
only when the identifier does NOT match the 22-character format, so a
format-matching identifier with no upload_id match would yield NotFound.
But for the format-matching identifier `"aaaaaaaaaaaaaaaaaaaaaa"` with no
upload_id match, `get_stored_upload` still falls back to the file-path
lookup and returns the record stored under that path. -/
theorem C4_counterexample :
    id_fmt_match "aaaaaaaaaaaaaaaaaaaaaa" = true ∧
    find_stored_by_id
        ⟨[], [⟨"BBBBBBBBBBBBBBBBBBBBBB", "aaaaaaaaaaaaaaaaaaaaaa", 0, none⟩]⟩
        "aaaaaaaaaaaaaaaaaaaaaa" = none ∧
    get_stored_upload
        ⟨[], [⟨"BBBBBBBBBBBBBBBBBBBBBB", "aaaaaaaaaaaaaaaaaaaaaa", 0, none⟩]⟩
        "aaaaaaaaaaaaaaaaaaaaaa" =
      .ok ⟨"BBBBBBBBBBBBBBBBBBBBBB", "aaaaaaaaaaaaaaaaaaaaaa", 0, none⟩ := by
  decide

/-- C4 (amended): the primary lookup is by upload_id and runs when the
identifier matches the 22-character format; the secondary file-path lookup
is attempted whenever the primary yields nothing — because the format does
not match OR because no record with that upload_id exists; if neither
lookup succeeds, the NotFound-class `DoesNotExist` error is raised. -/
theorem C4_lookup_fallback (db : DBState) (i : String) :
    (∀ su, id_fmt_match i = true → find_stored_by_id db i = some su →
        get_stored_upload db i = .ok su) ∧
    ((id_fmt_match i = false ∨ find_stored_by_id db i = none) →
      ((∀ su, find_stored_by_file db i = some su →
          get_stored_upload db i = .ok su) ∧
       (find_stored_by_file db i = none →
          get_stored_upload db i = .error .storedDoesNotExist))) := by
  constructor
  · intro su hf hs
    simp [get_stored_upload, hf, hs]
  · intro h
    constructor
    · intro su hfile
      rcases h with h | h
      · simp [get_stored_upload, h, hfile]
      · cases hf : id_fmt_match i <;> simp [get_stored_upload, hf, h, hfile]
    · intro hnone
      rcases h with h | h
      · simp [get_stored_upload, h, hnone]
      · cases hf : id_fmt_match i <;> simp [get_stored_upload, hf, h, hnone]

/-- Witness for the amended C4: a non-format identifier resolves through
the file-path fallback on a concrete registry. -/
theorem C4_lookup_fallback_witness :
    get_stored_upload ⟨[], [⟨"BBBBBBBBBBBBBBBBBBBBBB", "f.txt", 0, none⟩]⟩
        "f.txt" = .ok ⟨"BBBBBBBBBBBBBBBBBBBBBB", "f.txt", 0, none⟩ :=
  ((C4_lookup_fallback ⟨[], [⟨"BBBBBBBBBBBBBBBBBBBBBB", "f.txt", 0, none⟩]⟩
      "f.txt").2 (Or.inl (by decide))).1
    ⟨"BBBBBBBBBBBBBBBBBBBBBB", "f.txt", 0, none⟩ (by decide)

/-- C5 (counterexample): with `delete_file = False` the registry record is
removed and the physical artifact left intact, but — contrary to the claim —
the record is NOT retrievable by path afterwards: the backward-compat
file-path lookup raises `DoesNotExist` because the row is gone. -/
theorem C5_counterexample :
    delete_stored_upload ⟨none, some "store", []⟩ none
        ⟨["store"], [("store/f.txt", [7])]⟩
        ⟨[], [⟨"BBBBBBBBBBBBBBBBBBBBBB", "f.txt", 0, none⟩]⟩
        "BBBBBBBBBBBBBBBBBBBBBB" false =
      (.ok true, ⟨[], []⟩, ⟨["store"], [("store/f.txt", [7])]⟩, none) ∧
    get_stored_upload (⟨[], []⟩ : DBState) "f.txt" =
      .error .storedDoesNotExist := by
  decide

/-- C5 (amended): `delete_stored_upload` always removes the registry record
of the upload it resolves; with `delete_file = False` the filesystem is
untouched (physical artifact intact, though the upload is no longer
retrievable by any lookup once no record matches); with
`delete_file = True` the artifact must exist — otherwise the NotFound-class
`FileNotFoundError` is raised, the record being removed all the same — and
when it exists both record and artifact are removed. -/
theorem C5_delete_semantics (cfg : Config) (fs : LocalFS) (db : DBState)
    (i : String) (su : StoredUpload)
    (hget : get_stored_upload db i = .ok su) :
    (delete_stored_upload cfg none fs db i false =
      (.ok true,
       ⟨db.tempUploads,
        db.storedUploads.filter (fun s => !(s.upload_id == su.upload_id))⟩,
       fs, none)) ∧
    (file_store_path_ok cfg fs = true →
      ((local_exists fs (path_join (cfg.file_store_path.getD "") su.file) &&
        local_isfile fs (path_join (cfg.file_store_path.getD "") su.file)) = false →
        delete_stored_upload cfg none fs db i true =
          (.error .fileNotFound,
           ⟨db.tempUploads,
            db.storedUploads.filter (fun s => !(s.upload_id == su.upload_id))⟩,
           fs, none)) ∧
      ((local_exists fs (path_join (cfg.file_store_path.getD "") su.file) &&
        local_isfile fs (path_join (cfg.file_store_path.getD "") su.file)) = true →
        delete_stored_upload cfg none fs db i true =
          (.ok true,
           ⟨db.tempUploads,
            db.storedUploads.filter (fun s => !(s.upload_id == su.upload_id))⟩,
           ⟨fs.dirs,
            fs.files.filter
              (fun kv => !(kv.1 == path_join (cfg.file_store_path.getD "") su.file))⟩,
           none))) ∧
    (∀ db2 : DBState, find_stored_by_id db2 su.file = none →
        find_stored_by_file db2 su.file = none →
        get_stored_upload db2 su.file = .error .storedDoesNotExist) := by
  refine ⟨?_, ?_, ?_⟩
  · simp [delete_stored_upload, hget]
  · intro hcfg
    constructor
    · intro hmiss
      simp [delete_stored_upload, hget, hcfg, hmiss]
    · intro hhit
      simp [delete_stored_upload, hget, hcfg, hhit]
  · intro db2 hid hfile
    cases hf : id_fmt_match su.file <;> simp [get_stored_upload, hf, hid, hfile]

/-- Witness for the amended C5: a concrete delete with
`delete_file = False` removes the record and leaves the file intact. -/
theorem C5_delete_semantics_witness :
    delete_stored_upload ⟨none, some "store", []⟩ none
        ⟨["store"], [("store/g.txt", [7])]⟩
        ⟨[], [⟨"CCCCCCCCCCCCCCCCCCCCCC", "g.txt", 0, none⟩]⟩
        "CCCCCCCCCCCCCCCCCCCCCC" false =
      (.ok true, ⟨[], []⟩, ⟨["store"], [("store/g.txt", [7])]⟩, none) :=
  (C5_delete_semantics ⟨none, some "store", []⟩
    ⟨["store"], [("store/g.txt", [7])]⟩
    ⟨[], [⟨"CCCCCCCCCCCCCCCCCCCCCC", "g.txt", 0, none⟩]⟩
    "CCCCCCCCCCCCCCCCCCCCCC" ⟨"CCCCCCCCCCCCCCCCCCCCCC", "g.txt", 0, none⟩
    (by decide)).1

/-- C7 (counterexample): after `S3MoveStorage.save` copies
`tmp/src.dat` to `perm/dst.dat`, the destination holds the bytes but the
source key STILL EXISTS with its bytes — the method issues no delete,
contradicting the claim that the source key no longer exists afterwards. -/
theorem C7_counterexample :
    (s3_move_storage_save id id ⟨[("tmp/src.dat", [1, 2, 3])]⟩
        "perm/dst.dat" "tmp/src.dat").2.objects.lookup "perm/dst.dat" =
      some [1, 2, 3] ∧
    (s3_move_storage_save id id ⟨[("tmp/src.dat", [1, 2, 3])]⟩
        "perm/dst.dat" "tmp/src.dat").2.objects.lookup "tmp/src.dat" =
      some [1, 2, 3] := by
  decide

/-- C7 (amended): `S3MoveStorage.save` performs a server-side copy of the
source key to the (cleaned, normalised) destination key only: afterwards
the destination holds the source's bytes, the source key still exists with
its bytes — no delete of the source is part of this operation — and the
cleaned name is returned. -/
theorem C7_copy_without_delete (clean norm : String → String) (b : S3Bucket)
    (name cname : String) (data : Bytes)
    (hsrc : b.objects.lookup cname = some data) :
    ((s3_move_storage_save clean norm b name cname).2.objects.lookup
        (norm (clean name)) = some data) ∧
    ((s3_move_storage_save clean norm b name cname).2.objects.lookup
        cname = some data) ∧
    (s3_move_storage_save clean norm b name cname).1 = clean name := by
  refine ⟨?_, ?_, rfl⟩
  · simp [s3_move_storage_save, s3_copy_from, hsrc, List.lookup]
  · cases hc : (cname == norm (clean name)) with
    | true =>
      simp [s3_move_storage_save, s3_copy_from, hsrc, List.lookup, hc]
    | false =>
      simp [s3_move_storage_save, s3_copy_from, hsrc, List.lookup, hc,
            lookup_filter_ne _ _ _ hc]

/-- Witness for the amended C7 on a concrete bucket. -/
theorem C7_copy_without_delete_witness :
    ((s3_move_storage_save id id ⟨[("a/b", [9])]⟩ "c/d" "a/b").2.objects.lookup
        (id (id "c/d")) = some [9]) ∧
    ((s3_move_storage_save id id ⟨[("a/b", [9])]⟩ "c/d" "a/b").2.objects.lookup
        "a/b" = some [9]) ∧
    (s3_move_storage_save id id ⟨[("a/b", [9])]⟩ "c/d" "a/b").1 = id "c/d" :=
  C7_copy_without_delete id id ⟨[("a/b", [9])]⟩ "c/d" "a/b" [9] (by decide)

/-- C8 (code bug): `init_storage_backend` validates `FILE_STORE_PATH` under
`if storage_backend:` — the opposite of its own comment, which says the
setting is required precisely when NO remote backend is set (local file
storage).  Consequently, with local storage active and `FILE_STORE_PATH`
unset or pointing at a non-existent directory, initialization silently
succeeds instead of raising a ConfigurationError-class error; and when a
remote backend IS set, a bad directory raises the generic
`FileNotFoundError`. -/
theorem C8_init_local_storage_unchecked :
    init_storage_backend ⟨none, none, []⟩ ⟨[], []⟩ = .ok () ∧
    init_storage_backend ⟨none, some "missing-dir", []⟩ ⟨[], []⟩ = .ok () ∧
    init_storage_backend ⟨some "storages.backends.s3boto3.S3Boto3Storage",
        some "missing-dir", []⟩ ⟨[], []⟩ = .error .fsFileNotFound := by
  decide

/-- C9: when the thumbnail branch is taken and producing the variant fails
(the produced thumbnail does not exist), `get_stored_upload_file_data`
returns the ORIGINAL file's bytes successfully — the failure is logged, not
raised. -/
theorem C9_thumbnail_failure_falls_back (cfg : Config) (fs : LocalFS)
    (isImage : String → Bool) (getThumb : String → String → Option Bytes)
    (su : StoredUpload) (tt base : String) (B : Bytes)
    (hbase : cfg.file_store_path = some base)
    (hcfg : file_store_path_ok cfg fs = true)
    (hfile : fs.files.lookup (path_join base su.file) = some B)
    (hfail : getThumb su.file (chosen_thumbnail_config cfg tt) = none) :
    get_stored_upload_file_data cfg none fs isImage getThumb su tt =
      .ok (basename su.file, B) := by
  rw [gsufd_local_ok cfg fs isImage getThumb su tt base B hbase hcfg hfile]
  simp only [thumb_result, hfail]
  split <;> rfl

/-- Witness for C9: a concrete failed thumbnail production yields the
original bytes. -/
theorem C9_thumbnail_failure_witness :
    get_stored_upload_file_data ⟨none, some "store", [("small", "64x64")]⟩
        none ⟨["store"], [("store/img.png", [1, 2])]⟩
        (fun _ => true) (fun _ _ => none)
        ⟨"aaaaaaaaaaaaaaaaaaaaaa", "img.png", 0, none⟩ "small" =
      .ok (basename "img.png", [1, 2]) :=
  C9_thumbnail_failure_falls_back ⟨none, some "store", [("small", "64x64")]⟩
    ⟨["store"], [("store/img.png", [1, 2])]⟩ (fun _ => true) (fun _ _ => none)
    ⟨"aaaaaaaaaaaaaaaaaaaaaa", "img.png", 0, none⟩ "small" "store" [1, 2]
    (by decide) (by decide) (by decide) (by decide)

/-- C10: for a thumbnailable image with a truthy `thumbnail_type` that is
not a key of the non-empty `THUMBNAIL_SIZES` mapping, the function
substitutes the fixed default configuration `"300x300"` and returns the
thumbnail produced with it, falling back to the original bytes only when
that thumbnail cannot be produced — it neither raises nor simply returns
the original bytes. -/
theorem C10_unknown_thumbnail_type_default (cfg : Config) (fs : LocalFS)
    (isImage : String → Bool) (getThumb : String → String → Option Bytes)
    (su : StoredUpload) (tt base : String) (B : Bytes)
    (hbase : cfg.file_store_path = some base)
    (hcfg : file_store_path_ok cfg fs = true)
    (hfile : fs.files.lookup (path_join base su.file) = some B)
    (himg : isImage (basename su.file) = true)
    (htt : (tt == "") = false)
    (hsizes : cfg.thumbnail_sizes.isEmpty = false)
    (hunknown : cfg.thumbnail_sizes.lookup tt = none) :
    chosen_thumbnail_config cfg tt = "300x300" ∧
    get_stored_upload_file_data cfg none fs isImage getThumb su tt =
      .ok (basename su.file, (getThumb su.file "300x300").getD B) := by
  have hdef : chosen_thumbnail_config cfg tt = "300x300" := by
    simp [chosen_thumbnail_config, hunknown]
  refine ⟨hdef, ?_⟩
  rw [gsufd_local_ok cfg fs isImage getThumb su tt base B hbase hcfg hfile]
  simp only [thumb_result, himg, htt, hsizes, hdef, Bool.not_false,
             Bool.true_and, Bool.and_self, if_true]
  cases h : getThumb su.file "300x300" <;> simp [h]

/-- Witness for C10: a concrete unknown thumbnail type produces the
default-config thumbnail. -/
theorem C10_unknown_thumbnail_type_witness :
    chosen_thumbnail_config ⟨none, some "store", [("small", "64x64")]⟩
        "weird" = "300x300" ∧
    get_stored_upload_file_data ⟨none, some "store", [("small", "64x64")]⟩
        none ⟨["store"], [("store/img.png", [1, 2])]⟩
        (fun _ => true) (fun _ _ => some [9])
        ⟨"aaaaaaaaaaaaaaaaaaaaaa", "img.png", 0, none⟩ "weird" =
      .ok (basename "img.png", ((some [9] : Option Bytes).getD [1, 2])) :=
  C10_unknown_thumbnail_type_default ⟨none, some "store", [("small", "64x64")]⟩
    ⟨["store"], [("store/img.png", [1, 2])]⟩ (fun _ => true) (fun _ _ => some [9])
    ⟨"aaaaaaaaaaaaaaaaaaaaaa", "img.png", 0, none⟩ "weird" "store" [1, 2]
    (by decide) (by decide) (by decide) (by decide) (by decide) (by decide)
    (by decide)

end DrfFilepond
